import Mathlib

/-!
Verification of the response-normalization and conversation-session logic of the
dolo-v1 front end (`src/components/ui/health-analytics.tsx` and the Home page).

The JavaScript values manipulated by the code are embedded shallowly:
JSON values become the inductive `Json` (numbers restricted to integers, which
is all the claims exercise), JS `undefined` at the top level of a call is the
`none` of an `Option`, and the regex operations of `toList` are modelled by
explicit character-list functions.
-/

namespace Dolo

/-- JS whitespace (the characters matched by the regex class `\s` that can
occur in the strings this code handles). -/
def jsWs (c : Char) : Bool :=
  c = ' ' || c = '\t' || c = '\n' || c = '\r' || c = '\x0b' || c = '\x0c'

/-- Characters the source splits on: the regex class in `val.split(/[\n;]/)`. -/
def isSplitSep (c : Char) : Bool :=
  c = '\n' || c = ';'

/-- The bullet characters of the regex class `[-•*]` in `toList`. -/
def isBulletChar (c : Char) : Bool :=
  c = '-' || c = '•' || c = '*'

/-- Model of JS `String.prototype.split` on a character class: split at every
separator character, keeping empty segments, as JS does. -/
def splitChars (p : Char → Bool) : List Char → List (List Char)
  | [] => [[]]
  | c :: rest =>
    if p c then [] :: splitChars p rest
    else
      match splitChars p rest with
      | [] => [[c]]
      | seg :: more => (c :: seg) :: more

/-- `s.split(re)` for a character-class regex `re`. -/
def jsSplit (s : String) (p : Char → Bool) : List String :=
  (splitChars p s.data).map String.mk

/-- Model of JS `String.prototype.trim`. -/
def jsTrim (s : String) : String :=
  String.mk (((s.data.dropWhile jsWs).reverse.dropWhile jsWs).reverse)

/-- Length of the match of the regex `^[-•*]\s*` against a character list:
one bullet character followed by the longest run of whitespace, `0` when the
regex does not match at the start. -/
def bulletMatchLen : List Char → Nat
  | [] => 0
  | c :: rest => if isBulletChar c then 1 + (rest.takeWhile jsWs).length else 0

/-- Model of `s.replace(/^[-•*]\s*/, "")` in `toList`. -/
def stripBullet (s : String) : String :=
  String.mk (s.data.drop (bulletMatchLen s.data))

/-- JSON values as produced by `res.json()`.  Numbers are restricted to the
integers, which is all that the verified properties exercise. -/
inductive Json where
  | null : Json
  | bool : Bool → Json
  | num : Int → Json
  | str : String → Json
  | arr : List Json → Json
  | obj : List (String × Json) → Json

/-- Property read `d[k]` on a JS object: `none` is JS `undefined`. -/
def lookupJson (d : List (String × Json)) (k : String) : Option Json :=
  match d with
  | [] => none
  | (k2, v) :: rest => if k2 = k then some v else lookupJson rest k

/-- `Object.values(d)`. -/
def valuesOf (d : List (String × Json)) : List Json :=
  d.map Prod.snd

/-- The JS `in` operator on a plain object: key presence. -/
def hasKey (d : List (String × Json)) (k : String) : Bool :=
  d.any (fun kv => kv.1 = k)

/-- `isStructuredReport` from health-analytics.tsx: an object is a structured
report when at least one of `summary`, `abnormal_findings`, `urgency` is a
present key.  Arrays and primitives are never structured reports (no JSON
array carries those keys). -/
def isStructuredReport : Json → Bool
  | .obj d => hasKey d "summary" || hasKey d "abnormal_findings" || hasKey d "urgency"
  | _ => false

/-- `d[k]` filtered through nullish coalescing: a present `null` behaves like
an absent key for the `??` chains in the source. -/
def nullishGet (d : List (String × Json)) (k : String) : Option Json :=
  match lookupJson d k with
  | some .null => none
  | o => o

/-- The chain `d.response ?? d.message ?? d.reply ?? d.text ?? d.content` of
`extractContent`.  When every operand is nullish, the JS chain yields the
(nullish) value of `d.content`; the only use made of the result is a
string-type test, so `none` represents that case faithfully. -/
def topField (d : List (String × Json)) : Option Json :=
  nullishGet d "response" <|> nullishGet d "message" <|> nullishGet d "reply" <|>
    nullishGet d "text" <|> nullishGet d "content"

/-- The reply keys probed by `extractContent`, in source order. -/
def replyKeys : List String :=
  ["response", "message", "reply", "text", "content"]

/-- Whether an optional JS value holds a string (`typeof v === "string"`). -/
def isStrVal : Option Json → Bool
  | some (.str _) => true
  | _ => false

/-- Lowercase hexadecimal digit, for `\u00..` escapes. -/
def hexDigit (n : Nat) : Char :=
  if n < 10 then Char.ofNat (48 + n) else Char.ofNat (87 + n)

/-- JSON string escaping as performed by `JSON.stringify`. -/
def escapeJsonChar (c : Char) : List Char :=
  if c = '"' then ['\\', '"']
  else if c = '\\' then ['\\', '\\']
  else if c = '\n' then ['\\', 'n']
  else if c = '\r' then ['\\', 'r']
  else if c = '\t' then ['\\', 't']
  else if c = '\x08' then ['\\', 'b']
  else if c = '\x0c' then ['\\', 'f']
  else if c.toNat < 32 then
    ['\\', 'u', '0', '0', hexDigit (c.toNat / 16), hexDigit (c.toNat % 16)]
  else [c]

/-- A JSON string literal, quoted and escaped. -/
def quoteJson (s : String) : String :=
  String.mk ('"' :: (s.data.map escapeJsonChar).flatten ++ ['"'])

/-- Opening and closing curly braces as strings. -/
def lcurly : String := String.mk ['\x7b']

def rcurly : String := String.mk ['\x7d']

mutual

/-- `JSON.stringify(v, null, 2)` at current indentation `ind`. -/
def stringifyVal (ind : String) : Json → String
  | .null => "null"
  | .bool true => "true"
  | .bool false => "false"
  | .num n => toString n
  | .str s => quoteJson s
  | .arr [] => "[]"
  | .arr (x :: xs) =>
    "[\n" ++ String.intercalate ",\n" (stringifyItems (ind ++ "  ") (x :: xs)) ++
      "\n" ++ ind ++ "]"
  | .obj [] => lcurly ++ rcurly
  | .obj (f :: fs) =>
    lcurly ++ "\n" ++ String.intercalate ",\n" (stringifyFields (ind ++ "  ") (f :: fs)) ++
      "\n" ++ ind ++ rcurly

/-- Array items, each on its own indented line. -/
def stringifyItems (ind : String) : List Json → List String
  | [] => []
  | v :: vs => (ind ++ stringifyVal ind v) :: stringifyItems ind vs

/-- Object fields, each on its own indented line. -/
def stringifyFields (ind : String) : List (String × Json) → List String
  | [] => []
  | (k, v) :: fs => (ind ++ quoteJson k ++ ": " ++ stringifyVal ind v) :: stringifyFields ind fs

end

/-- `JSON.stringify(v, null, 2)`. -/
def jsonStringify (j : Json) : String :=
  stringifyVal "" j

/-- The result of normalization: plain text or a value used as a structured
report (the source returns the raw value with a type cast). -/
inductive Content where
  | str : String → Content
  | report : Json → Content

/-- `extractContent` from health-analytics.tsx.  The argument is the parsed
response; `none` is a JS `undefined` input. -/
def extractContent : Option Json → Content
  | some (.str s) => .str s
  | none => .str ""
  | some .null => .str ""
  | some (.num n) => .str (toString n)
  | some (.bool b) => .str (if b then "true" else "false")
  | some (.arr xs) =>
    match xs.find? isStructuredReport with
    | some v => .report v
    | none => .str (jsonStringify (.arr xs))
  | some (.obj d) =>
    match topField d with
    | some (.str s) => .str s
    | _ =>
      if isStructuredReport (.obj d) then .report (.obj d)
      else
        match (valuesOf d).find? isStructuredReport with
        | some v => .report v
        | none => .str (jsonStringify (.obj d))

/-- The declared domain of `toList`: `string | string[] | undefined` is
`Option StrOrList`. -/
inductive StrOrList where
  | str : String → StrOrList
  | list : List String → StrOrList
deriving DecidableEq

/-- `toList` from health-analytics.tsx.  `!val` returns early exactly for the
falsy values of the declared domain: `undefined` and the empty string (an
empty array is truthy in JS and flows through the array branch, with the same
result). -/
def toList : Option StrOrList → List String
  | none => []
  | some (.str s) =>
    if s = "" then []
    else ((jsSplit s isSplitSep).map (fun seg => jsTrim (stripBullet seg))).filter
      (fun x => x ≠ "")
  | some (.list xs) => xs.filter (fun x => x ≠ "")

/-! ### The claim-side description of `toList`

`toListClaimStrict` follows the specification's words literally: a bullet
marker is stripped only when it is `-`, `•` or `*` *followed by whitespace*.
`toListDescr` is the description amended to make the trailing whitespace
optional, which is what the source regex `^[-•*]\s*` implements. -/

/-- Bullet stripping as the spec sentence reads literally: the marker is a
bullet character followed by whitespace. -/
def stripBulletStrict (s : String) : String :=
  match s.data with
  | c1 :: c2 :: rest =>
    if isBulletChar c1 && jsWs c2 then String.mk (c2 :: rest) else s
  | _ => s

/-- `toList` as the claim describes it, with the strict bullet marker. -/
def toListClaimStrict : Option StrOrList → List String
  | none => []
  | some (.str s) =>
    ((jsSplit s isSplitSep).map (fun seg => jsTrim (stripBulletStrict seg))).filter
      (fun x => x ≠ "")
  | some (.list xs) => xs.filter (fun x => x ≠ "")

/-- Bullet stripping as the amended claim describes it: a leading bullet
character is removed together with any immediately following whitespace. -/
def stripBulletDescr (s : String) : String :=
  match s.data with
  | [] => s
  | c :: rest => if isBulletChar c then String.mk (rest.dropWhile jsWs) else s

/-- `toList` as the amended claim describes it. -/
def toListDescr : Option StrOrList → List String
  | none => []
  | some (.str s) =>
    ((jsSplit s isSplitSep).map (fun seg => jsTrim (stripBulletDescr seg))).filter
      (fun x => x ≠ "")
  | some (.list xs) => xs.filter (fun x => x ≠ "")

/-! ### Conversation id extraction (`createConversation`) -/

mutual

/-- JS `String(v)` conversion of a parsed JSON value. -/
def jsToString : Json → String
  | .null => "null"
  | .bool true => "true"
  | .bool false => "false"
  | .num n => toString n
  | .str s => s
  | .obj _ => "[object Object]"
  | .arr xs => String.intercalate "," (jsToStringItems xs)

/-- Array elements under `Array.prototype.toString`: `null` (and holes)
render as the empty string, everything else via `String(v)`. -/
def jsToStringItems : List Json → List String
  | [] => []
  | .null :: vs => "" :: jsToStringItems vs
  | v :: vs => jsToString v :: jsToStringItems vs

end

/-- JS `String(v)` where the argument may be `undefined`. -/
def jsToStringOpt : Option Json → String
  | none => "undefined"
  | some v => jsToString v

/-- The id extraction of `createConversation`:
`String(data.conversation_id ?? data.id ?? data._id ?? Object.values(data)[0])`. -/
def extractConversationId (d : List (String × Json)) : String :=
  jsToStringOpt
    (nullishGet d "conversation_id" <|> nullishGet d "id" <|> nullishGet d "_id" <|>
      (valuesOf d).head?)

/-- The claim-side description of the fallback order: the `conversation_id`
field, else the `id` field, else the `_id` field, else the value of the
response's first field; a field that is absent or null falls through. -/
def idFallbackSpec (d : List (String × Json)) : Option Json :=
  match nullishGet d "conversation_id" with
  | some v => some v
  | none =>
    match nullishGet d "id" with
    | some v => some v
    | none =>
      match nullishGet d "_id" with
      | some v => some v
      | none => (valuesOf d).head?

/-! ### The conversation session state machine

The React component's relevant state is `messages`, `conversationId`,
`pendingFile` and `isTyping`; the asynchronous callbacks of `sendMessage`,
`runAnalysis`, `clearChat` and `createConversation` are modelled as events of a
step function.  `inflight` records the requests that have been issued and not
yet resolved (each fetch resolves exactly once, delivered by a `respondOk` or
`respondErr` event that is a no-op for a request that was never issued).
Every appended message carries the ghost field `convTag`: the conversation id
the producing operation was working for — the real `Message` has no such
field, it only serves to state which conversation a transcript entry belongs
to. -/

/-- Message roles. -/
inductive Role where
  | user : Role
  | assistant : Role
deriving DecidableEq

/-- Which endpoint an in-flight request targets. -/
inductive ReqKind where
  | chat : ReqKind
  | analyze : ReqKind
deriving DecidableEq

/-- An issued, unresolved request: the conversation id baked into its URL and
the `message` payload it carries. -/
structure Request where
  convId : String
  message : String
  kind : ReqKind
deriving DecidableEq

/-- A transcript entry.  `convTag` is the ghost conversation id of the
operation that appended the entry. -/
structure Msg where
  role : Role
  content : Content
  fileName : Option String
  convTag : String

/-- The component state touched by the session logic. -/
structure SessionState where
  messages : List Msg
  conversationId : Option String
  pendingFile : Option String
  isTyping : Bool
  inflight : List Request

/-- The initial component state. -/
def initState : SessionState :=
  { messages := [], conversationId := none, pendingFile := none,
    isTyping := false, inflight := [] }

/-- The synchronous part of `runAnalysis` once the id guard has passed:
append the optimistic user message (prompt, or `"Analyze this report"` when
the prompt is empty), set the typing flag, and issue the multipart request
whose `message` field defaults to `"Please analyze this medical report."`. -/
def runAnalysisStep (s : SessionState) (cid fileName prompt : String) : SessionState :=
  { s with
    messages := s.messages ++
      [{ role := .user,
         content := .str (if prompt = "" then "Analyze this report" else prompt),
         fileName := some fileName, convTag := cid }],
    isTyping := true,
    inflight := s.inflight ++
      [{ convId := cid,
         message := if prompt = "" then "Please analyze this medical report." else prompt,
         kind := .analyze }] }

/-- The session events. -/
inductive Event where
  | convCreated : String → Event
  | sendStart : String → Event
  | analyzeStart : String → String → Event
  | respondOk : Request → Option Json → Event
  | respondErr : Request → String → Event
  | resetStart : Event

/-- One step of the session.  Each branch mirrors the corresponding source
handler: `convCreated` is `setConversationId(id)` after `createConversation`
resolves (initial effect or `clearChat`); `sendStart v` is `sendMessage` with
draft text `v`; `analyzeStart f p` is `analyzeReport(file, p)` through the
imperative handle; `respondOk`/`respondErr` are the resolution of an issued
fetch (the `catch` block ignores the error value, hence the unused error
string); `resetStart` is the synchronous part of `clearChat`. -/
def step (s : SessionState) : Event → SessionState
  | .convCreated id => { s with conversationId := some id }
  | .resetStart => { s with messages := [], conversationId := none, pendingFile := none }
  | .sendStart v =>
    let text := jsTrim v
    if text = "" ∧ s.pendingFile = none then s
    else
      match s.conversationId with
      | none => s
      | some cid =>
        match s.pendingFile with
        | some f => runAnalysisStep { s with pendingFile := none } cid f text
        | none =>
          { s with
            messages := s.messages ++
              [{ role := .user, content := .str text, fileName := none, convTag := cid }],
            isTyping := true,
            inflight := s.inflight ++ [{ convId := cid, message := text, kind := .chat }] }
  | .analyzeStart f prompt =>
    match s.conversationId with
    | none => s
    | some cid => runAnalysisStep s cid f prompt
  | .respondOk r data =>
    if r ∈ s.inflight then
      { s with
        messages := s.messages ++
          [{ role := .assistant, content := extractContent data, fileName := none,
             convTag := r.convId }],
        isTyping := false,
        inflight := s.inflight.erase r }
    else s
  | .respondErr r _err =>
    if r ∈ s.inflight then
      { s with
        messages := s.messages ++
          [{ role := .assistant, content := .str "Sorry, couldn't reach the server.",
             fileName := none, convTag := r.convId }],
        isTyping := false,
        inflight := s.inflight.erase r }
    else s

/-- Run a sequence of events from a state. -/
def runEvents (s : SessionState) (es : List Event) : SessionState :=
  es.foldl step s

/-! ## Helper lemmas -/

/-- A nullish-filtered lookup that produced a value read that value off the
object. -/
theorem nullishGet_eq_some {d : List (String × Json)} {k : String} {v : Json}
    (h : nullishGet d k = some v) : lookupJson d k = some v := by
  unfold nullishGet at h
  rcases hl : lookupJson d k with _ | w
  · rw [hl] at h; exact absurd h (by simp)
  · rw [hl] at h; cases w <;> simp_all

/-- If no reply key holds a string, the coalesced `top` value of
`extractContent` is not a string. -/
theorem isStrVal_topField {d : List (String × Json)}
    (h : ∀ k ∈ replyKeys, isStrVal (lookupJson d k) = false) :
    isStrVal (topField d) = false := by
  have hng : ∀ k ∈ replyKeys, isStrVal (nullishGet d k) = false := by
    intro k hk
    rcases hn : nullishGet d k with _ | w
    · rfl
    · have := h k hk
      rw [nullishGet_eq_some hn] at this
      exact this
  have h1 := hng "response" (by simp [replyKeys])
  have h2 := hng "message" (by simp [replyKeys])
  have h3 := hng "reply" (by simp [replyKeys])
  have h4 := hng "text" (by simp [replyKeys])
  have h5 := hng "content" (by simp [replyKeys])
  unfold topField
  rcases e1 : nullishGet d "response" with _ | v1
  · rcases e2 : nullishGet d "message" with _ | v2
    · rcases e3 : nullishGet d "reply" with _ | v3
      · rcases e4 : nullishGet d "text" with _ | v4
        · rcases e5 : nullishGet d "content" with _ | v5 <;> simp_all
        · simp_all
      · simp_all
    · simp_all
  · simp_all

/-- `extractContent` on an object whose coalesced top value is not a string
takes the structured-report branches. -/
theorem extractContent_obj_notStr {d : List (String × Json)}
    (h : isStrVal (topField d) = false) :
    extractContent (some (Json.obj d)) =
      if isStructuredReport (Json.obj d) then Content.report (Json.obj d)
      else
        match (valuesOf d).find? isStructuredReport with
        | some v => Content.report v
        | none => Content.str (jsonStringify (Json.obj d)) := by
  rcases ht : topField d with _ | v
  · simp [extractContent, ht]
  · rw [ht] at h
    cases v <;> simp_all [extractContent, ht, isStrVal]

/-! ## Claims -/

/-- C2, counterexample: for the object `(response: 5, message: "hi")` the
first string-valued field among the reply keys is `message` with value
`"hi"`, yet `extractContent` does not return `"hi"`: the non-null non-string
`response` stops the nullish-coalescing chain, so the function falls through
to the serialize branch. -/
theorem c2_first_string_field_counterexample :
    lookupJson [("response", Json.num 5), ("message", Json.str "hi")] "response" =
        some (Json.num 5) ∧
    lookupJson [("response", Json.num 5), ("message", Json.str "hi")] "message" =
        some (Json.str "hi") ∧
    extractContent (some (Json.obj [("response", Json.num 5), ("message", Json.str "hi")])) ≠
      Content.str "hi" := by
  refine ⟨rfl, rfl, ?_⟩
  intro h
  have h2 : extractContent
      (some (Json.obj [("response", Json.num 5), ("message", Json.str "hi")])) =
      Content.str (jsonStringify (Json.obj [("response", Json.num 5), ("message", Json.str "hi")])) :=
    rfl
  rw [h2] at h
  injection h with h3
  exact absurd h3 (by decide)

/-- C2, amended: for every object input whose nullish-coalesced first present
value among the reply keys response, message, reply, text, content is a
string, `extractContent` returns that string, regardless of what other fields
are present. -/
theorem c2_first_nonnullish_string (d : List (String × Json)) (s : String)
    (h : topField d = some (Json.str s)) :
    extractContent (some (Json.obj d)) = Content.str s := by
  simp [extractContent, h]

/-- Witness for `c2_first_nonnullish_string` at the object
`(extra: 1, message: "hi")`. -/
theorem c2_first_nonnullish_string_witness :
    topField [("extra", Json.num 1), ("message", Json.str "hi")] = some (Json.str "hi") ∧
    extractContent (some (Json.obj [("extra", Json.num 1), ("message", Json.str "hi")])) =
      Content.str "hi" :=
  ⟨rfl, c2_first_nonnullish_string _ _ rfl⟩

/-- C3: `extractContent` is a total function, and on every object that has no
string-valued reply field, is not a structured report, and has no
structured-report value one level deep, it returns the pretty-printed JSON
serialization of the whole object as plain text; in particular the empty
object normalizes to the two-character string of an opening and a closing
brace. -/
theorem c3_serialize_fallback_total :
    (∀ d : List (String × Json),
      (∀ k ∈ replyKeys, isStrVal (lookupJson d k) = false) →
      isStructuredReport (Json.obj d) = false →
      (∀ v ∈ valuesOf d, isStructuredReport v = false) →
      extractContent (some (Json.obj d)) = Content.str (jsonStringify (Json.obj d))) ∧
    extractContent (some (Json.obj [])) = Content.str (lcurly ++ rcurly) := by
  constructor
  · intro d h1 h2 h3
    rw [extractContent_obj_notStr (isStrVal_topField h1), h2]
    have hfind : (valuesOf d).find? isStructuredReport = none :=
      List.find?_eq_none.mpr (by intro x hx; simp [h3 x hx])
    simp [hfind]
  · rfl

/-- Witness for `c3_serialize_fallback_total` at the object `(a: 1)`. -/
theorem c3_serialize_fallback_total_witness :
    extractContent (some (Json.obj [("a", Json.num 1)])) =
      Content.str (jsonStringify (Json.obj [("a", Json.num 1)])) :=
  c3_serialize_fallback_total.1 [("a", Json.num 1)] (by decide) (by decide) (by decide)

/-- C4: every object that satisfies the structured-report discriminator and
has no string-valued reply field is returned whole as the report; in
particular `(summary: "ok")` comes back as a report whose `summary` field
reads `"ok"` and whose three list fields are absent, so that each coerces to
the empty list. -/
theorem c4_discriminated_report :
    (∀ d : List (String × Json),
      (∀ k ∈ replyKeys, isStrVal (lookupJson d k) = false) →
      isStructuredReport (Json.obj d) = true →
      extractContent (some (Json.obj d)) = Content.report (Json.obj d)) ∧
    (extractContent (some (Json.obj [("summary", Json.str "ok")])) =
        Content.report (Json.obj [("summary", Json.str "ok")]) ∧
      lookupJson [("summary", Json.str "ok")] "summary" = some (Json.str "ok") ∧
      lookupJson [("summary", Json.str "ok")] "abnormal_findings" = none ∧
      lookupJson [("summary", Json.str "ok")] "recommended_tests" = none ∧
      lookupJson [("summary", Json.str "ok")] "lifestyle_suggestions" = none ∧
      toList none = []) := by
  constructor
  · intro d h1 h2
    rw [extractContent_obj_notStr (isStrVal_topField h1), h2]
    simp
  · exact ⟨rfl, rfl, rfl, rfl, rfl, rfl⟩

/-- Witness for `c4_discriminated_report` at the object `(urgency: "high")`. -/
theorem c4_discriminated_report_witness :
    extractContent (some (Json.obj [("urgency", Json.str "high")])) =
      Content.report (Json.obj [("urgency", Json.str "high")]) :=
  c4_discriminated_report.1 [("urgency", Json.str "high")] (by decide) (by decide)

/-- C5: every string input is returned verbatim, and both null and undefined
inputs normalize to the empty string. -/
theorem c5_string_verbatim_null_empty :
    (∀ s : String, extractContent (some (Json.str s)) = Content.str s) ∧
    extractContent (some Json.null) = Content.str "" ∧
    extractContent none = Content.str "" :=
  ⟨fun _ => rfl, rfl, rfl⟩

/-- Dropping the length of the matched whitespace run drops exactly that
run. -/
theorem drop_length_takeWhile (p : Char → Bool) (l : List Char) :
    l.drop (l.takeWhile p).length = l.dropWhile p := by
  induction l with
  | nil => rfl
  | cons c rest ih =>
    by_cases h : p c
    · simpa [List.takeWhile_cons, List.dropWhile_cons, h] using ih
    · simp [List.takeWhile_cons, List.dropWhile_cons, h]

/-- The regex-replace model of bullet stripping agrees with the amended
description: remove a leading bullet character together with any whitespace
that immediately follows it. -/
theorem stripBullet_eq_descr (s : String) : stripBullet s = stripBulletDescr s := by
  rcases s with ⟨cs⟩
  cases cs with
  | nil => rfl
  | cons c rest =>
    by_cases hb : isBulletChar c
    · simp only [stripBullet, stripBulletDescr, bulletMatchLen, hb, if_pos]
      rw [Nat.add_comm, List.drop_succ_cons, drop_length_takeWhile]
    · simp only [stripBullet, stripBulletDescr, bulletMatchLen, hb, if_neg]
      rfl

/-- C6, counterexample: on the segment `"-c"` — a bullet character not
followed by whitespace — the source strips the bullet, while the claim's
strict description (marker is a bullet followed by whitespace) keeps it. -/
theorem c6_bullet_counterexample :
    toList (some (StrOrList.str "-c")) = ["c"] ∧
    toListClaimStrict (some (StrOrList.str "-c")) = ["-c"] := by
  constructor <;> decide

/-- C6, amended: `toList` agrees everywhere with the described
transformation once the whitespace after a bullet marker is made optional:
undefined and empty inputs give the empty list, list inputs are filtered of
empty entries in order, and string inputs are split on newline or semicolon,
bullet-stripped, trimmed, and cleared of empty segments in order; the two
concrete examples of the claim evaluate as stated. -/
theorem c6_toList_description :
    (∀ v, toList v = toListDescr v) ∧
    toList (some (StrOrList.str "a; b\n- c")) = ["a", "b", "c"] ∧
    toList (some (StrOrList.list ["x", "", "y"])) = ["x", "y"] := by
  refine ⟨?_, by decide, by decide⟩
  intro v
  match v with
  | none => rfl
  | some (.list xs) => rfl
  | some (.str s) =>
    by_cases hs : s = ""
    · subst hs; decide
    · simp only [toList, toListDescr, if_neg hs]
      congr 1
      exact List.map_congr_left fun seg _ => by rw [stripBullet_eq_descr]

/-- C9: the conversation id extracted by `createConversation` follows the
fallback order conversation_id, id, _id, value of the first field — each
stage falling through when its field is absent or null — and is converted to
a string with JS string conversion. -/
theorem c9_conversation_id_fallback (d : List (String × Json)) :
    extractConversationId d = jsToStringOpt (idFallbackSpec d) := by
  unfold extractConversationId idFallbackSpec
  rcases nullishGet d "conversation_id" with _ | v1 <;>
    rcases nullishGet d "id" with _ | v2 <;>
      rcases nullishGet d "_id" with _ | v3 <;> rfl

/-- C1, counterexample: conversation `c1` is created, `"hello"` is sent, and
while the request is still in flight (typing indicator set, one outstanding
request) the chat is reset and a fresh conversation `c2` is created.  When
the old request's response arrives it is appended to the new transcript: the
final transcript holds exactly the stale assistant message, tagged with the
old conversation `c1`, not the fresh `c2`. -/
theorem c1_stale_response_counterexample :
    (runEvents initState [Event.convCreated "c1", Event.sendStart "hello"]).isTyping = true ∧
    (runEvents initState [Event.convCreated "c1", Event.sendStart "hello"]).inflight =
      [{ convId := "c1", message := "hello", kind := ReqKind.chat }] ∧
    (runEvents initState
        [Event.convCreated "c1", Event.sendStart "hello", Event.resetStart,
         Event.convCreated "c2",
         Event.respondOk { convId := "c1", message := "hello", kind := ReqKind.chat }
           (some (Json.str "hi"))]).conversationId = some "c2" ∧
    (runEvents initState
        [Event.convCreated "c1", Event.sendStart "hello", Event.resetStart,
         Event.convCreated "c2",
         Event.respondOk { convId := "c1", message := "hello", kind := ReqKind.chat }
           (some (Json.str "hi"))]).messages =
      [{ role := Role.assistant, content := Content.str "hi", fileName := none,
         convTag := "c1" }] ∧
    "c1" ≠ "c2" := by
  refine ⟨rfl, rfl, rfl, rfl, by decide⟩

/-- C1, amended: the code has no stale-response guard.  From any state with
an in-flight request, after a reset followed by the creation of the fresh
conversation, the old request's response is appended to the new transcript
(which the reset had cleared), tagged with the old conversation id. -/
theorem c1_stale_response_appended (s : SessionState) (r : Request) (data : Option Json)
    (newId : String) (h : r ∈ s.inflight) :
    (step (step (step s Event.resetStart) (Event.convCreated newId))
        (Event.respondOk r data)).messages =
      [{ role := Role.assistant, content := extractContent data, fileName := none,
         convTag := r.convId }] := by
  simp [step, h]

/-- A session state with the `"hello"` request of conversation `c1` still in
flight, for the stale-response witness. -/
def staleDemoState : SessionState :=
  ⟨[], some "c1", none, true, [⟨"c1", "hello", ReqKind.chat⟩]⟩

/-- Witness for `c1_stale_response_appended`: the in-flight `"hello"` request
of conversation `c1` resolves after a reset that created `c2`. -/
theorem c1_stale_response_appended_witness :
    (⟨"c1", "hello", ReqKind.chat⟩ : Request) ∈ staleDemoState.inflight ∧
    (step (step (step staleDemoState Event.resetStart) (Event.convCreated "c2"))
        (Event.respondOk ⟨"c1", "hello", ReqKind.chat⟩ (some (Json.str "hi")))).messages =
      [{ role := Role.assistant, content := Content.str "hi", fileName := none,
         convTag := "c1" }] :=
  ⟨by decide, c1_stale_response_appended _ _ _ "c2" (by decide)⟩

/-- C7: a text send from a Ready state (id assigned, no attachment, no
outstanding request) whose transport fails leaves the session with exactly
two new transcript entries — the optimistic user message carrying the sent
text and the fixed fallback assistant message, whatever the error value was —
and back in Ready (typing cleared, no outstanding request, id kept); and any
state with the id assigned and no attachment accepts a further non-empty
send, appending its user message. -/
theorem c7_transport_failure_recovery (s : SessionState) (cid v err : String)
    (hid : s.conversationId = some cid) (hpf : s.pendingFile = none)
    (hin : s.inflight = []) (hv : jsTrim v ≠ "") :
    step (step s (Event.sendStart v)) (Event.respondErr ⟨cid, jsTrim v, ReqKind.chat⟩ err) =
      { messages := s.messages ++
          [⟨Role.user, Content.str (jsTrim v), none, cid⟩,
           ⟨Role.assistant, Content.str "Sorry, couldn't reach the server.", none, cid⟩],
        conversationId := some cid, pendingFile := none, isTyping := false,
        inflight := [] } ∧
    (∀ (t : SessionState) (v2 : String), t.conversationId = some cid →
      t.pendingFile = none → jsTrim v2 ≠ "" →
      (step t (Event.sendStart v2)).messages =
        t.messages ++ [⟨Role.user, Content.str (jsTrim v2), none, cid⟩]) := by
  constructor
  · simp [step, hid, hpf, hin, hv]
  · intro t v2 h1 h2 h3
    simp [step, h1, h2, h3]

/-- A Ready state of conversation `c1` with an empty transcript, for the
transport-failure witness. -/
def c7DemoState : SessionState := ⟨[], some "c1", none, false, []⟩

/-- Witness for `c7_transport_failure_recovery`: sending `" hello "` from the
Ready conversation `c1` and failing the transport yields exactly the user
message and the fallback message, back in Ready. -/
theorem c7_transport_failure_recovery_witness :
    step (step c7DemoState (Event.sendStart " hello "))
        (Event.respondErr ⟨"c1", jsTrim " hello ", ReqKind.chat⟩ "boom") =
      { messages := c7DemoState.messages ++
          [⟨Role.user, Content.str (jsTrim " hello "), none, "c1"⟩,
           ⟨Role.assistant, Content.str "Sorry, couldn't reach the server.", none, "c1"⟩],
        conversationId := some "c1", pendingFile := none, isTyping := false,
        inflight := [] } :=
  (c7_transport_failure_recovery c7DemoState "c1" " hello " "boom" rfl rfl rfl
    (by decide)).1

/-- C8: a send is a complete no-op — same state, so no transcript entry and
no issued request — when the trimmed text is empty with no pending
attachment, and likewise (for both text sends and analysis requests) when no
conversation id has been assigned. -/
theorem c8_rejected_sends :
    (∀ (s : SessionState) (v : String), jsTrim v = "" → s.pendingFile = none →
      step s (Event.sendStart v) = s) ∧
    (∀ (s : SessionState) (v : String), s.conversationId = none →
      step s (Event.sendStart v) = s) ∧
    (∀ (s : SessionState) (f p : String), s.conversationId = none →
      step s (Event.analyzeStart f p) = s) := by
  refine ⟨?_, ?_, ?_⟩
  · intro s v h1 h2
    simp [step, h1, h2]
  · intro s v h
    by_cases hc : jsTrim v = "" ∧ s.pendingFile = none
    · simp [step, hc]
    · simp [step, hc, h]
  · intro s f p h
    simp [step, h]

/-- A Ready state with an assigned id, for the rejected-send witness. -/
def c8DemoState : SessionState := ⟨[], some "c1", none, false, []⟩

/-- Witness for `c8_rejected_sends`: a whitespace-only send with an id, a
text send without an id, and an analysis request without an id all leave the
state unchanged. -/
theorem c8_rejected_sends_witness :
    step c8DemoState (Event.sendStart "   ") = c8DemoState ∧
    step initState (Event.sendStart "hello") = initState ∧
    step initState (Event.analyzeStart "scan.png" "check") = initState :=
  ⟨c8_rejected_sends.1 _ _ (by decide) rfl,
   c8_rejected_sends.2.1 _ _ rfl,
   c8_rejected_sends.2.2 _ _ _ rfl⟩

/-- C10: an analysis invoked through the session with an empty prompt
displays the user message `"Analyze this report"` in the transcript while the
issued request transmits the different string
`"Please analyze this medical report."` in its message field. -/
theorem c10_two_default_prompts (s : SessionState) (cid f : String)
    (hid : s.conversationId = some cid) :
    (step s (Event.analyzeStart f "")).messages =
      s.messages ++ [⟨Role.user, Content.str "Analyze this report", some f, cid⟩] ∧
    (step s (Event.analyzeStart f "")).inflight =
      s.inflight ++ [⟨cid, "Please analyze this medical report.", ReqKind.analyze⟩] ∧
    ("Analyze this report" : String) ≠ "Please analyze this medical report." := by
  refine ⟨?_, ?_, by decide⟩ <;> simp [step, hid, runAnalysisStep]

/-- A Ready state of conversation `c1`, for the default-prompt witness. -/
def c10DemoState : SessionState := ⟨[], some "c1", none, false, []⟩

/-- Witness for `c10_two_default_prompts` at a concrete Ready state and the
file `report.png`. -/
theorem c10_two_default_prompts_witness :
    (step c10DemoState (Event.analyzeStart "report.png" "")).messages =
      c10DemoState.messages ++
        [⟨Role.user, Content.str "Analyze this report", some "report.png", "c1"⟩] ∧
    (step c10DemoState (Event.analyzeStart "report.png" "")).inflight =
      c10DemoState.inflight ++
        [⟨"c1", "Please analyze this medical report.", ReqKind.analyze⟩] :=
  ⟨(c10_two_default_prompts c10DemoState "c1" "report.png" rfl).1,
   (c10_two_default_prompts c10DemoState "c1" "report.png" rfl).2.1⟩

end Dolo
